import Mathlib

/-!
Verification of the session/attendance lifecycle of the BLE attendance
system: the peripheral-side store and its four characteristic callbacks
(esp32/src/main.cpp), the organizer-side persistence path (App.tsx and
LecturerAttendanceScreen.tsx) and the participant-side reconciliation
(StudentAttendanceScreen.tsx).

The two global std::map values of main.cpp are modelled as association
lists keyed by String; map operations mirror std::map semantics:
find, operator-bracket assignment (replace in place or insert), the
default-inserting operator-bracket read, and erase.
-/

namespace BleAttendance

/-- Peripheral-side attendance record, struct AttendanceRecord of main.cpp:
name, matricNumber and an unsigned long timestamp (modelled as Nat). -/
structure AttendanceRecord where
  name : String
  matricNumber : String
  timestamp : Nat
deriving DecidableEq

/-- Peripheral-side session, struct AttendanceSession of main.cpp. -/
structure AttendanceSession where
  courseCode : String
  courseName : String
  expiryTimestamp : Nat
deriving DecidableEq

/-- The two global maps of main.cpp: sessions and markedAttendances. -/
structure Store where
  sessions : List (String × AttendanceSession)
  markedAttendances : List (String × List AttendanceRecord)
deriving DecidableEq

/-- The store right after boot: both maps empty (the store is volatile). -/
def emptyStore : Store := ⟨[], []⟩

/-- MAX_SESSIONS of main.cpp. -/
def MAX_SESSIONS : Nat := 5

/-- std::map find: first value bound to key k, if any. -/
def lookupA {α : Type} (m : List (String × α)) (k : String) : Option α :=
  match m with
  | [] => none
  | (j, v) :: rest => if j = k then some v else lookupA rest k

/-- std::map operator-bracket assignment m[k] = v: replace the value in
place when the key is present, append the binding otherwise. -/
def insertA {α : Type} (m : List (String × α)) (k : String) (v : α) :
    List (String × α) :=
  match m with
  | [] => [(k, v)]
  | (j, w) :: rest => if j = k then (j, v) :: rest else (j, w) :: insertA rest k v

/-- markedAttendances[k].push_back r of main.cpp: operator-bracket
default-inserts an empty vector when k is absent, then push_back appends. -/
def pushRecord (m : List (String × List AttendanceRecord)) (k : String)
    (r : AttendanceRecord) : List (String × List AttendanceRecord) :=
  match m with
  | [] => [(k, [r])]
  | (j, rs) :: rest =>
      if j = k then (j, rs ++ [r]) :: rest else (j, rs) :: pushRecord rest k r

/-- The records held for a session key: the bound vector, or the empty
vector a default-inserting read would produce. -/
def lookupRecords (m : List (String × List AttendanceRecord)) (k : String) :
    List AttendanceRecord :=
  (lookupA m k).getD []

/-- ArduinoJson as-String extraction of a possibly missing field: a
missing field is the null variant and serializes to the string "null". -/
def jsonAsString : Option String → String
  | some s => s
  | none => "null"

/-- ArduinoJson as-unsigned-long extraction: a missing field yields 0. -/
def jsonAsNat : Option Nat → Nat
  | some n => n
  | none => 0

/-- A structurally valid create-session JSON document; each field may be
missing. Field names follow the payload of CreateAttendanceCallback. -/
structure CreateDoc where
  sessionId : Option String
  courseCode : Option String
  courseName : Option String
  expiryTimestamp : Option Nat
deriving DecidableEq

/-- A create-session request as received by the characteristic: either
deserializeJson fails, or it yields a document. -/
inductive CreateRequest where
  | malformed
  | parsed (d : CreateDoc)
deriving DecidableEq

/-- A structurally valid mark-attendance JSON document; each field may be
missing. Field names follow the payload read by MarkAttendanceCallback. -/
structure MarkDoc where
  sessionId : Option String
  name : Option String
  matricNumber : Option String
  timestamp : Option Nat
deriving DecidableEq

/-- A mark-attendance request as received by the characteristic. -/
inductive MarkRequest where
  | malformed
  | parsed (d : MarkDoc)
deriving DecidableEq

/-- CreateAttendanceCallback::onWrite of main.cpp: drop on parse error;
drop when sessions.size() is at least MAX_SESSIONS; otherwise
sessions[sessionId] = newSession. -/
def createAttendanceOnWrite (st : Store) (req : CreateRequest) : Store :=
  match req with
  | .malformed => st
  | .parsed d =>
      let sessionId := jsonAsString d.sessionId
      let courseCode := jsonAsString d.courseCode
      let courseName := jsonAsString d.courseName
      let expiryTimestamp := jsonAsNat d.expiryTimestamp
      if MAX_SESSIONS ≤ st.sessions.length then st
      else { st with
        sessions := insertA st.sessions sessionId
          ⟨courseCode, courseName, expiryTimestamp⟩ }

/-- MarkAttendanceCallback::onWrite of main.cpp: drop on parse error;
drop when the session id is unknown; drop when the timestamp exceeds the
session expiry; otherwise push the record onto markedAttendances[id]. -/
def markAttendanceOnWrite (st : Store) (req : MarkRequest) : Store :=
  match req with
  | .malformed => st
  | .parsed d =>
      let sessionId := jsonAsString d.sessionId
      let studentName := jsonAsString d.name
      let matricNumber := jsonAsString d.matricNumber
      let timestamp := jsonAsNat d.timestamp
      match lookupA st.sessions sessionId with
      | some session =>
          if timestamp ≤ session.expiryTimestamp then
            { st with
              markedAttendances := pushRecord st.markedAttendances sessionId
                ⟨studentName, matricNumber, timestamp⟩ }
          else st
      | none => st

/-- Whether key k is the id of a session whose expiry has passed, the
keys removeExpiredSessions erases from markedAttendances. -/
def isExpiredKey (st : Store) (currentTime : Nat) (k : String) : Bool :=
  st.sessions.any (fun p => k == p.1 && decide (p.2.expiryTimestamp ≤ currentTime))

/-- removeExpiredSessions of main.cpp: one pass over sessions erasing
every session whose expiryTimestamp is at most currentTime together with
its markedAttendances entry. The in-place erasing loop is modelled as two
filters over the pre-state; each key occurs once in a std::map, so the
original map determines exactly which keys the loop erases. -/
def removeExpiredSessions (st : Store) (currentTime : Nat) : Store :=
  { sessions := st.sessions.filter
      (fun p => !decide (p.2.expiryTimestamp ≤ currentTime)),
    markedAttendances := st.markedAttendances.filter
      (fun q => !isExpiredKey st currentTime q.1) }

/-- One element of the list-sessions response payload built by
RetrieveSessionsCallback::onRead. -/
structure SessionEntry where
  sessionId : String
  courseCode : String
  courseName : String
  expiryTimestamp : Nat
deriving DecidableEq

/-- One per-session object of the list-attendances response payload built
by RetrieveAttendancesCallback::onRead. -/
structure AttendanceEntry where
  sessionId : String
  courseCode : String
  courseName : String
  expiryTimestamp : Nat
  attendances : List AttendanceRecord
deriving DecidableEq

/-- RetrieveSessionsCallback::onRead of main.cpp: serialize every session;
the store is not touched. -/
def retrieveSessionsOnRead (st : Store) : List SessionEntry × Store :=
  (st.sessions.map (fun p => ⟨p.1, p.2.courseCode, p.2.courseName, p.2.expiryTimestamp⟩), st)

/-- The markedAttendances[key] read of RetrieveAttendancesCallback::onRead:
std::map operator-bracket returns the bound vector, default-inserting an
empty vector when the key is absent. -/
def getOrInsertRecords (m : List (String × List AttendanceRecord)) (k : String) :
    List AttendanceRecord × List (String × List AttendanceRecord) :=
  match lookupA m k with
  | some rs => (rs, m)
  | none => ([], m ++ [(k, [])])

/-- The serialization loop of RetrieveAttendancesCallback::onRead: one
payload entry per session, reading markedAttendances through the
default-inserting operator-bracket and threading the mutated map. -/
def retrieveAttendancesGo (ss : List (String × AttendanceSession))
    (m : List (String × List AttendanceRecord)) :
    List AttendanceEntry × List (String × List AttendanceRecord) :=
  match ss with
  | [] => ([], m)
  | (k, s) :: rest =>
      let step := getOrInsertRecords m k
      let tail := retrieveAttendancesGo rest step.2
      (⟨k, s.courseCode, s.courseName, s.expiryTimestamp, step.1⟩ :: tail.1, tail.2)

/-- RetrieveAttendancesCallback::onRead of main.cpp: build the payload and
return the store as the loop leaves it. -/
def retrieveAttendancesOnRead (st : Store) : List AttendanceEntry × Store :=
  ((retrieveAttendancesGo st.sessions st.markedAttendances).1,
   { st with markedAttendances := (retrieveAttendancesGo st.sessions st.markedAttendances).2 })

theorem lookupA_insertA_self {α : Type} (m : List (String × α)) (k : String) (v : α) :
    lookupA (insertA m k v) k = some v := by
  induction m with
  | nil => simp [insertA, lookupA]
  | cons p rest ih =>
      obtain ⟨j, w⟩ := p
      by_cases h : j = k
      · simp [insertA, lookupA, h]
      · simp [insertA, lookupA, h, ih]

theorem lookupA_insertA_ne {α : Type} (m : List (String × α)) (k : String) (v : α)
    (j : String) (h : j ≠ k) : lookupA (insertA m k v) j = lookupA m j := by
  induction m with
  | nil => simp [insertA, lookupA, Ne.symm h]
  | cons p rest ih =>
      obtain ⟨i, w⟩ := p
      by_cases hik : i = k
      · subst hik
        simp [insertA, lookupA, Ne.symm h]
      · simp [insertA, lookupA, hik, ih]

theorem length_insertA_le {α : Type} (m : List (String × α)) (k : String) (v : α) :
    (insertA m k v).length ≤ m.length + 1 := by
  induction m with
  | nil => simp [insertA]
  | cons p rest ih =>
      obtain ⟨j, w⟩ := p
      by_cases h : j = k
      · simp [insertA, h]
      · simpa [insertA, h] using Nat.succ_le_succ ih

theorem lookupA_mem {α : Type} (m : List (String × α)) (k : String) (v : α)
    (h : lookupA m k = some v) : (k, v) ∈ m := by
  induction m with
  | nil => simp [lookupA] at h
  | cons p rest ih =>
      obtain ⟨j, w⟩ := p
      by_cases hj : j = k
      · subst hj
        simp [lookupA] at h
        simp [h]
      · simp [lookupA, hj] at h
        exact List.mem_cons_of_mem _ (ih h)

theorem lookupRecords_pushRecord_self (m : List (String × List AttendanceRecord))
    (k : String) (r : AttendanceRecord) :
    lookupRecords (pushRecord m k r) k = lookupRecords m k ++ [r] := by
  induction m with
  | nil => simp [pushRecord, lookupRecords, lookupA]
  | cons p rest ih =>
      obtain ⟨j, rs⟩ := p
      by_cases h : j = k
      · simp [pushRecord, lookupRecords, lookupA, h]
      · simpa [pushRecord, lookupRecords, lookupA, h] using ih

theorem lookupRecords_pushRecord_ne (m : List (String × List AttendanceRecord))
    (k : String) (r : AttendanceRecord) (j : String) (h : j ≠ k) :
    lookupRecords (pushRecord m k r) j = lookupRecords m j := by
  induction m with
  | nil => simp [pushRecord, lookupRecords, lookupA, Ne.symm h]
  | cons p rest ih =>
      obtain ⟨i, rs⟩ := p
      by_cases hik : i = k
      · subst hik
        simp [pushRecord, lookupRecords, lookupA, Ne.symm h]
      · by_cases hij : i = j
        · subst hij
          simp [pushRecord, lookupRecords, lookupA, hik]
        · simp only [pushRecord, hik, if_neg hik, lookupRecords, lookupA, hij,
            if_neg hij] at ih ⊢
          exact ih

theorem getOrInsertRecords_fst (m : List (String × List AttendanceRecord)) (k : String) :
    (getOrInsertRecords m k).1 = lookupRecords m k := by
  unfold getOrInsertRecords lookupRecords
  cases lookupA m k <;> simp

theorem lookupA_append {α : Type} (m₁ m₂ : List (String × α)) (k : String) :
    lookupA (m₁ ++ m₂) k =
      match lookupA m₁ k with
      | some v => some v
      | none => lookupA m₂ k := by
  induction m₁ with
  | nil => simp [lookupA]
  | cons p rest ih =>
      obtain ⟨j, w⟩ := p
      by_cases h : j = k
      · simp [lookupA, h]
      · simp [lookupA, h, ih]

theorem lookupRecords_getOrInsertRecords (m : List (String × List AttendanceRecord))
    (k j : String) :
    lookupRecords (getOrInsertRecords m k).2 j = lookupRecords m j := by
  unfold getOrInsertRecords
  cases hm : lookupA m k with
  | some rs => simp
  | none =>
      simp only [lookupRecords, lookupA_append]
      cases hj : lookupA m j with
      | some rs => simp
      | none =>
          by_cases hkj : k = j

          · subst hkj
            simp [lookupA, hm]
          · simp [lookupA, hkj]

/-- The payload entry the serialization loop emits for a session pair,
given the record map in force when the pair is processed. -/
def attendanceEntryOf (m : List (String × List AttendanceRecord))
    (p : String × AttendanceSession) : AttendanceEntry :=
  ⟨p.1, p.2.courseCode, p.2.courseName, p.2.expiryTimestamp, lookupRecords m p.1⟩

theorem retrieveAttendancesGo_fst_ext (ss : List (String × AttendanceSession))
    (m w : List (String × List AttendanceRecord))
    (hw : ∀ j, lookupRecords m j = lookupRecords w j) :
    (retrieveAttendancesGo ss m).1 = ss.map (attendanceEntryOf w) := by
  induction ss generalizing m with
  | nil => simp [retrieveAttendancesGo]
  | cons p rest ih =>
      obtain ⟨k, s⟩ := p
      have hstep : ∀ j, lookupRecords (getOrInsertRecords m k).2 j = lookupRecords w j := by
        intro j
        rw [lookupRecords_getOrInsertRecords]
        exact hw j
      simp only [retrieveAttendancesGo, List.map_cons]
      refine congrArg₂ List.cons ?_ (ih _ hstep)
      simp [attendanceEntryOf, getOrInsertRecords_fst, hw k]

theorem retrieveAttendancesGo_fst (ss : List (String × AttendanceSession))
    (m : List (String × List AttendanceRecord)) :
    (retrieveAttendancesGo ss m).1 = ss.map (attendanceEntryOf m) :=
  retrieveAttendancesGo_fst_ext ss m m (fun _ => rfl)

theorem retrieveAttendancesGo_snd (ss : List (String × AttendanceSession))
    (m : List (String × List AttendanceRecord)) (j : String) :
    lookupRecords (retrieveAttendancesGo ss m).2 j = lookupRecords m j := by
  induction ss generalizing m with
  | nil => simp [retrieveAttendancesGo]
  | cons p rest ih =>
      obtain ⟨k, s⟩ := p
      simp only [retrieveAttendancesGo]
      rw [ih]
      exact lookupRecords_getOrInsertRecords m k j

theorem lookupA_filter_keep {α : Type} (m : List (String × α))
    (f : String × α → Bool) (k : String) (v : α)
    (h1 : lookupA m k = some v) (h2 : f (k, v) = true) :
    lookupA (m.filter f) k = some v := by
  induction m with
  | nil => simp [lookupA] at h1
  | cons p rest ih =>
      obtain ⟨j, w⟩ := p
      by_cases hj : j = k
      · subst hj
        simp [lookupA] at h1
        subst h1
        simp [List.filter, h2, lookupA]
      · simp only [lookupA, hj, if_neg hj] at h1
        cases hf : f (j, w) <;> simp [List.filter, hf, lookupA, hj, ih h1]

/-!
Client side. The organizer replica is the two SQLite tables
AttendanceSessions and AttendanceRecords of App.tsx; rows are modelled in
insertion order. INSERT OR REPLACE on the UNIQUE sessionId column deletes
the conflicting row and appends the new one; plain INSERT appends.
-/

/-- A row of the AttendanceSessions table of App.tsx. -/
structure SessionRow where
  sessionId : String
  lecturerEmail : String
  courseCode : String
  courseName : String
  createdAt : Nat
deriving DecidableEq

/-- A row of the AttendanceRecords table of App.tsx. -/
structure RecordRow where
  sessionId : String
  studentName : String
  matricNumber : String
  timestamp : Nat
deriving DecidableEq

/-- The organizer's durable replica: the two tables of App.tsx. -/
structure OrganizerDB where
  sessionRows : List SessionRow
  recordRows : List RecordRow
deriving DecidableEq

/-- An attendance record as the lecturer screen converts it from the
device payload: studentName, matricNumber, timestamp. -/
structure ClientRecord where
  studentName : String
  matricNumber : String
  timestamp : Nat
deriving DecidableEq

/-- saveAttendanceSession of App.tsx: INSERT OR REPLACE the header row
keyed by sessionId, then a plain INSERT for every record in the list. -/
def saveAttendanceSession (db : OrganizerDB) (sessionId lecturerEmail : String)
    (courseCode courseName : String) (createdAt : Nat)
    (records : List ClientRecord) : OrganizerDB :=
  { sessionRows :=
      db.sessionRows.filter (fun r => !(r.sessionId == sessionId)) ++
        [⟨sessionId, lecturerEmail, courseCode, courseName, createdAt⟩],
    recordRows :=
      db.recordRows ++ records.map
        (fun r => ⟨sessionId, r.studentName, r.matricNumber, r.timestamp⟩) }

/-- One per-session object of the device list-attendances payload as the
lecturer screen consumes it. -/
structure DeviceSessionData where
  courseCode : String
  courseName : String
  attendances : List ClientRecord
deriving DecidableEq

/-- The persistence pass of retrieveAttendances in
LecturerAttendanceScreen.tsx: for every entry of the device payload,
saveAttendanceSession with the fetched course fields and records. -/
def persistDeviceSnapshot (db : OrganizerDB) (lecturerEmail : String)
    (createdAt : Nat) (snapshot : List (String × DeviceSessionData)) : OrganizerDB :=
  snapshot.foldl
    (fun acc p =>
      saveAttendanceSession acc p.1 lecturerEmail p.2.courseCode p.2.courseName
        createdAt p.2.attendances)
    db

/-!
Participant side, StudentAttendanceScreen.tsx: the durable MarkedSession
replica, the markable-list filter of retrieveAvailableSessions, and the
optimistic local apply of markAttendance.
-/

/-- A marked attendance in the participant replica (interface
MarkedAttendance of StudentAttendanceScreen.tsx). -/
structure MarkedAttendance where
  sessionId : String
  courseCode : String
  courseName : String
  expiryTimestamp : Nat
  timestamp : Nat
deriving DecidableEq

/-- The filter of retrieveAvailableSessions: drop every fetched session
whose sessionId already occurs in the marked-session replica. -/
def filteredSessions (sessions : List SessionEntry)
    (markedSessions : List MarkedAttendance) : List SessionEntry :=
  sessions.filter
    (fun s => !(markedSessions.any (fun m => m.sessionId == s.sessionId)))

/-- The optimistic local apply of markAttendance, run only after the
transport write succeeded: append the marked attendance to the replica
and drop the session from the available list. -/
def markAttendanceApply (markedSessions : List MarkedAttendance)
    (availableSessions : List SessionEntry) (s : SessionEntry)
    (timestamp : Nat) : List MarkedAttendance × List SessionEntry :=
  (markedSessions ++ [⟨s.sessionId, s.courseCode, s.courseName, s.expiryTimestamp, timestamp⟩],
   availableSessions.filter (fun a => !(a.sessionId == s.sessionId)))

/-!
Connection State Machine, as shared by StudentAttendanceScreen.tsx and
LecturerAttendanceScreen.tsx.
-/

/-- The connectionState values of both screens. -/
inductive ConnState where
  | disconnected
  | scanning
  | connecting
  | connected
deriving DecidableEq

/-- The client-side transport failure sites, one per catch handler in the
two screens: the startDeviceScan error callback and the connect chain
catch (identical in both screens), the student's mark-attendance write
catch, the student's retrieveAvailableSessions read catch, the lecturer's
createAttendanceSession write catch, and the lecturer's
retrieveAttendances BLE read catch. -/
inductive TransportFailure where
  | scanError
  | connectError
  | markWriteError
  | sessionsReadError
  | createWriteError
  | attendancesReadError
deriving DecidableEq

/-- State and user-surfacing outcome of a failure handler. -/
structure FailureOutcome where
  state : ConnState
  surfaced : Bool
deriving DecidableEq

/-- The failure handlers of both screens. A scan error runs
resetConnection and an error toast; a connect error runs resetConnection
and an error toast. The read and write errors on an established
connection never touch connectionState: the student's mark-write and
sessions-read catches and the lecturer's create-write catch show an
error toast, while the lecturer's attendances-read catch only logs and
falls back to local sessions, after which the surrounding flow shows a
success toast, so that failure is never surfaced to the user. -/
def onTransportFailure (st : ConnState) : TransportFailure → FailureOutcome
  | .scanError => ⟨.disconnected, true⟩
  | .connectError => ⟨.disconnected, true⟩
  | .markWriteError => ⟨st, true⟩
  | .sessionsReadError => ⟨st, true⟩
  | .createWriteError => ⟨st, true⟩
  | .attendancesReadError => ⟨st, false⟩

/-- A whole run of create-session requests against the boot-time store. -/
def applyCreateSequence (reqs : List CreateRequest) : Store :=
  reqs.foldl createAttendanceOnWrite emptyStore

theorem createAttendanceOnWrite_length_le (st : Store) (req : CreateRequest)
    (h : st.sessions.length ≤ MAX_SESSIONS) :
    (createAttendanceOnWrite st req).sessions.length ≤ MAX_SESSIONS := by
  cases req with
  | malformed => exact h
  | parsed d =>
      unfold createAttendanceOnWrite
      by_cases hfull : MAX_SESSIONS ≤ st.sessions.length
      · simpa [hfull] using h
      · have hlt : st.sessions.length + 1 ≤ MAX_SESSIONS := Nat.lt_of_not_le hfull
        simp only [hfull, if_false]
        exact le_trans (length_insertA_le _ _ _) hlt

theorem applyCreateSequence_aux (reqs : List CreateRequest) (st : Store)
    (h : st.sessions.length ≤ MAX_SESSIONS) :
    (reqs.foldl createAttendanceOnWrite st).sessions.length ≤ MAX_SESSIONS := by
  induction reqs generalizing st with
  | nil => exact h
  | cons req rest ih =>
      exact ih _ (createAttendanceOnWrite_length_le st req h)

theorem createAttendanceOnWrite_full (st : Store) (req : CreateRequest)
    (h : MAX_SESSIONS ≤ st.sessions.length) :
    createAttendanceOnWrite st req = st := by
  cases req with
  | malformed => rfl
  | parsed d => simp [createAttendanceOnWrite, h]

/-- C1: over every sequence of create-session requests applied to the
boot-time empty store, the session count never exceeds MAX_SESSIONS = 5,
and a create-session request arriving at a store already holding
MAX_SESSIONS sessions leaves the store completely unchanged. -/
theorem createSession_capacity (reqs : List CreateRequest) (st : Store)
    (req : CreateRequest) (h : st.sessions.length = MAX_SESSIONS) :
    (applyCreateSequence reqs).sessions.length ≤ MAX_SESSIONS ∧
    createAttendanceOnWrite st req = st :=
  ⟨applyCreateSequence_aux reqs emptyStore (by simp [emptyStore, MAX_SESSIONS]),
   createAttendanceOnWrite_full st req (le_of_eq h.symm)⟩

/-- A store holding MAX_SESSIONS sessions, for the capacity witness. -/
def storeFull : Store :=
  ⟨[("s1", ⟨"c1", "n1", 9⟩), ("s2", ⟨"c2", "n2", 9⟩), ("s3", ⟨"c3", "n3", 9⟩),
    ("s4", ⟨"c4", "n4", 9⟩), ("s5", ⟨"c5", "n5", 9⟩)], []⟩

/-- Witness for C1 at a run of seven create requests and a full store. -/
theorem createSession_capacity_witness :
    (applyCreateSequence (List.replicate 7
      (.parsed ⟨some "s9", some "c9", some "n9", some 9⟩))).sessions.length ≤ MAX_SESSIONS ∧
    createAttendanceOnWrite storeFull
      (.parsed ⟨some "s6", some "c6", some "n6", some 9⟩) = storeFull :=
  createSession_capacity _ storeFull _ (by decide)

theorem markAttendanceOnWrite_sessions (st : Store) (req : MarkRequest) :
    (markAttendanceOnWrite st req).sessions = st.sessions := by
  cases req with
  | malformed => rfl
  | parsed d =>
      cases hl : lookupA st.sessions (jsonAsString d.sessionId) with
      | none => simp [markAttendanceOnWrite, hl]
      | some s =>
          by_cases h : jsonAsNat d.timestamp ≤ s.expiryTimestamp <;>
            simp [markAttendanceOnWrite, hl, h]

/-- C3: a mark-attendance request whose session id is unknown, or whose
timestamp exceeds the session's expiry, leaves the store unchanged;
otherwise exactly the request's record is appended to that session's
list, other sessions' records are untouched, and the appended record's
timestamp is at most the session's expiry at acceptance time. -/
theorem markAttendance_spec (st : Store) (d : MarkDoc) :
    (lookupA st.sessions (jsonAsString d.sessionId) = none →
      markAttendanceOnWrite st (.parsed d) = st) ∧
    (∀ s, lookupA st.sessions (jsonAsString d.sessionId) = some s →
      s.expiryTimestamp < jsonAsNat d.timestamp →
      markAttendanceOnWrite st (.parsed d) = st) ∧
    (∀ s, lookupA st.sessions (jsonAsString d.sessionId) = some s →
      jsonAsNat d.timestamp ≤ s.expiryTimestamp →
      (markAttendanceOnWrite st (.parsed d)).sessions = st.sessions ∧
      lookupRecords (markAttendanceOnWrite st (.parsed d)).markedAttendances
          (jsonAsString d.sessionId)
        = lookupRecords st.markedAttendances (jsonAsString d.sessionId) ++
            [⟨jsonAsString d.name, jsonAsString d.matricNumber, jsonAsNat d.timestamp⟩] ∧
      (∀ k, k ≠ jsonAsString d.sessionId →
        lookupRecords (markAttendanceOnWrite st (.parsed d)).markedAttendances k
          = lookupRecords st.markedAttendances k) ∧
      (⟨jsonAsString d.name, jsonAsString d.matricNumber,
          jsonAsNat d.timestamp⟩ : AttendanceRecord).timestamp ≤ s.expiryTimestamp) := by
  refine ⟨?_, ?_, ?_⟩
  · intro hnone
    simp [markAttendanceOnWrite, hnone]
  · intro s hs hlt
    simp [markAttendanceOnWrite, hs, Nat.not_le.mpr hlt]
  · intro s hs hle
    have hres : markAttendanceOnWrite st (.parsed d) =
        { st with markedAttendances :=
            (pushRecord st.markedAttendances (jsonAsString d.sessionId)
              ⟨jsonAsString d.name, jsonAsString d.matricNumber, jsonAsNat d.timestamp⟩) } := by
      simp [markAttendanceOnWrite, hs, hle]
    refine ⟨by rw [hres], ?_, ?_, hle⟩
    · rw [hres]
      exact lookupRecords_pushRecord_self _ _ _
    · intro k hk
      rw [hres]
      exact lookupRecords_pushRecord_ne _ _ _ _ hk

/-- A one-session store for the mark-attendance witness. -/
def storeMark : Store := ⟨[("CSC101-A", ⟨"CSC101", "Circuits", 1000⟩)], []⟩

/-- A mark-attendance document accepted against storeMark. -/
def docMark : MarkDoc := ⟨some "CSC101-A", some "Ada Obi", some "EEG2020", some 10⟩

/-- Witness for C3 at a concrete accepted mark. -/
theorem markAttendance_spec_witness :
    (markAttendanceOnWrite storeMark (.parsed docMark)).sessions = storeMark.sessions ∧
    lookupRecords (markAttendanceOnWrite storeMark (.parsed docMark)).markedAttendances
        "CSC101-A"
      = lookupRecords storeMark.markedAttendances "CSC101-A" ++
          [⟨"Ada Obi", "EEG2020", 10⟩] := by
  have h := (markAttendance_spec storeMark docMark).2.2 ⟨"CSC101", "Circuits", 1000⟩
    (by decide) (by decide)
  exact ⟨h.1, h.2.1⟩

/-- A store holding one session, used to exhibit the duplicate-id create. -/
def storeDup : Store := ⟨[("A", ⟨"CSC101", "Circuits", 10⟩)], []⟩

/-- A create-session document reusing the id already stored in storeDup. -/
def docDup : CreateDoc := ⟨some "A", some "CSC101", some "Circuits", some 20⟩

/-- C6 counterexample: with one session stored and room to spare, a second
create-session request bearing the same id changes the stored session's
expiry from 10 to 20, so a stored session is not immune to later
operations. -/
theorem session_update_counterexample :
    lookupA storeDup.sessions "A" = some ⟨"CSC101", "Circuits", 10⟩ ∧
    lookupA (createAttendanceOnWrite storeDup (.parsed docDup)).sessions "A"
      = some ⟨"CSC101", "Circuits", 20⟩ ∧
    createAttendanceOnWrite storeDup (.parsed docDup) ≠ storeDup := by decide

/-- C6 amended: a stored session's fields change only when a create-session
request reuses its id; mark-attendance requests, both snapshot reads, a
malformed create, and a create for a different id leave it bound
unchanged, and eviction keeps it while its expiry has not passed. -/
theorem session_immutable_amended (st : Store) (k : String) (s : AttendanceSession)
    (h : lookupA st.sessions k = some s) :
    (∀ req, lookupA (markAttendanceOnWrite st req).sessions k = some s) ∧
    (∀ d : CreateDoc, jsonAsString d.sessionId ≠ k →
      lookupA (createAttendanceOnWrite st (.parsed d)).sessions k = some s) ∧
    lookupA (createAttendanceOnWrite st .malformed).sessions k = some s ∧
    (retrieveSessionsOnRead st).2 = st ∧
    lookupA (retrieveAttendancesOnRead st).2.sessions k = some s ∧
    (∀ currentTime, ¬ s.expiryTimestamp ≤ currentTime →
      lookupA (removeExpiredSessions st currentTime).sessions k = some s) := by
  refine ⟨?_, ?_, h, rfl, h, ?_⟩
  · intro req
    rw [markAttendanceOnWrite_sessions]
    exact h
  · intro d hne
    by_cases hfull : MAX_SESSIONS ≤ st.sessions.length
    · rw [createAttendanceOnWrite_full st _ hfull]
      exact h
    · have hsess : (createAttendanceOnWrite st (.parsed d)).sessions =
          insertA st.sessions (jsonAsString d.sessionId)
            ⟨jsonAsString d.courseCode, jsonAsString d.courseName,
              jsonAsNat d.expiryTimestamp⟩ := by
        simp [createAttendanceOnWrite, hfull]
      rw [hsess, lookupA_insertA_ne _ _ _ _ (Ne.symm hne)]
      exact h
  · intro currentTime hnow
    exact lookupA_filter_keep _ _ _ _ h (by simp [hnow])

/-- A one-session store with a live session, for the C6 witness. -/
def storeKeep : Store := ⟨[("B", ⟨"MTH201", "Algebra", 50⟩)], []⟩

/-- Witness for C6 amended: the stored session survives a mark, a create
for a different id, and an eviction pass before its expiry. -/
theorem session_immutable_amended_witness :
    lookupA (markAttendanceOnWrite storeKeep
        (.parsed ⟨some "B", some "Zed", some "EEG9", some 7⟩)).sessions "B"
      = some ⟨"MTH201", "Algebra", 50⟩ ∧
    lookupA (createAttendanceOnWrite storeKeep
        (.parsed ⟨some "C", some "c", some "n", some 9⟩)).sessions "B"
      = some ⟨"MTH201", "Algebra", 50⟩ ∧
    lookupA (removeExpiredSessions storeKeep 10).sessions "B"
      = some ⟨"MTH201", "Algebra", 50⟩ := by
  have h := session_immutable_amended storeKeep "B" ⟨"MTH201", "Algebra", 50⟩ (by decide)
  exact ⟨h.1 _, h.2.1 _ (by decide), h.2.2.2.2.2 10 (by decide)⟩

/-- C7 amended: the list-sessions read returns the store untouched; the
list-attendances read leaves the session table untouched and leaves every
key bound to the same records (its only effect is default-inserting empty
record lists, which no lookup distinguishes), and its payload is exactly
one entry per stored session carrying that session's records. -/
theorem snapshot_reads_frame (st : Store) :
    (retrieveSessionsOnRead st).2 = st ∧
    (retrieveAttendancesOnRead st).2.sessions = st.sessions ∧
    (∀ k, lookupRecords (retrieveAttendancesOnRead st).2.markedAttendances k
      = lookupRecords st.markedAttendances k) ∧
    (retrieveAttendancesOnRead st).1
      = st.sessions.map (attendanceEntryOf st.markedAttendances) := by
  refine ⟨rfl, rfl, ?_, ?_⟩
  · intro k
    exact retrieveAttendancesGo_snd _ _ k
  · exact retrieveAttendancesGo_fst _ _

/-- A store whose only session has no marked attendances yet. -/
def storeNoRecs : Store := ⟨[("A", ⟨"CSC101", "Circuits", 10⟩)], []⟩

/-- C7 counterexample: reading list-attendances on a store whose session
has no records default-inserts an empty record list, so the store after
the read differs from the store before it. -/
theorem snapshot_read_mutates_counterexample :
    (retrieveAttendancesOnRead storeNoRecs).2 ≠ storeNoRecs ∧
    (retrieveAttendancesOnRead storeNoRecs).2.markedAttendances = [("A", [])] := by
  decide

theorem isExpiredKey_iff (st : Store) (currentTime : Nat) (k : String) :
    isExpiredKey st currentTime k = true ↔
      ∃ s, (k, s) ∈ st.sessions ∧ s.expiryTimestamp ≤ currentTime := by
  unfold isExpiredKey
  rw [List.any_eq_true]
  constructor
  · rintro ⟨⟨a, b⟩, hmem, hp⟩
    simp only [Bool.and_eq_true, beq_iff_eq, decide_eq_true_eq] at hp
    obtain ⟨rfl, hle⟩ := hp
    exact ⟨b, hmem, hle⟩
  · rintro ⟨s, hmem, hle⟩
    exact ⟨(k, s), hmem, by simp [hle]⟩

/-- C9: eviction at currentTime keeps exactly the sessions whose expiry
has not passed, keeps a markedAttendances entry exactly when its key is
not an expired session's id, and every entry of a list-attendances
payload taken afterwards belongs to a surviving session. -/
theorem removeExpiredSessions_spec (st : Store) (currentTime : Nat) :
    (∀ k s, (k, s) ∈ (removeExpiredSessions st currentTime).sessions ↔
      ((k, s) ∈ st.sessions ∧ ¬ s.expiryTimestamp ≤ currentTime)) ∧
    (∀ k rs, (k, rs) ∈ (removeExpiredSessions st currentTime).markedAttendances ↔
      ((k, rs) ∈ st.markedAttendances ∧
        ¬ ∃ s, (k, s) ∈ st.sessions ∧ s.expiryTimestamp ≤ currentTime)) ∧
    (∀ e ∈ (retrieveAttendancesOnRead (removeExpiredSessions st currentTime)).1,
      ∃ s, (e.sessionId, s) ∈ (removeExpiredSessions st currentTime).sessions ∧
        ¬ s.expiryTimestamp ≤ currentTime) := by
  refine ⟨?_, ?_, ?_⟩
  · intro k s
    simp [removeExpiredSessions, List.mem_filter]
  · intro k rs
    constructor
    · intro hmem
      have h1 := List.mem_filter.mp hmem
      refine ⟨h1.1, ?_⟩
      intro hex
      have h2 : isExpiredKey st currentTime k = true :=
        (isExpiredKey_iff st currentTime k).mpr hex
      simp [h2] at h1
    · rintro ⟨hmem, hnot⟩
      apply List.mem_filter.mpr
      refine ⟨hmem, ?_⟩
      have h2 : isExpiredKey st currentTime k = false := by
        cases hik : isExpiredKey st currentTime k
        · rfl
        · exact absurd ((isExpiredKey_iff st currentTime k).mp hik) hnot
      simp [h2]
  · intro e he
    have hfst := retrieveAttendancesGo_fst
      (removeExpiredSessions st currentTime).sessions
      (removeExpiredSessions st currentTime).markedAttendances
    rw [show (retrieveAttendancesOnRead (removeExpiredSessions st currentTime)).1
        = (removeExpiredSessions st currentTime).sessions.map
            (attendanceEntryOf (removeExpiredSessions st currentTime).markedAttendances)
      from hfst] at he
    obtain ⟨p, hp, rfl⟩ := List.mem_map.mp he
    refine ⟨p.2, ?_, ?_⟩
    · simpa [attendanceEntryOf, Prod.mk.eta] using hp
    · have h2 := (List.mem_filter.mp hp).2
      simpa using h2

/-- A store with one expired and one live session, each with records. -/
def storeEvict : Store :=
  ⟨[("A", ⟨"c1", "n1", 5⟩), ("B", ⟨"c2", "n2", 20⟩)],
   [("A", [⟨"x", "y", 3⟩]), ("B", [⟨"u", "v", 7⟩])]⟩

/-- Witness for C9: at currentTime 10, the live session "B" survives and
the expired session "A" loses its markedAttendances entry. -/
theorem removeExpiredSessions_spec_witness :
    ("B", (⟨"c2", "n2", 20⟩ : AttendanceSession))
      ∈ (removeExpiredSessions storeEvict 10).sessions ∧
    ¬ ("A", [(⟨"x", "y", 3⟩ : AttendanceRecord)])
      ∈ (removeExpiredSessions storeEvict 10).markedAttendances := by
  have h := removeExpiredSessions_spec storeEvict 10
  constructor
  · exact (h.1 "B" _).mpr ⟨by decide, by decide⟩
  · intro hmem
    exact ((h.2.1 "A" _).mp hmem).2 ⟨⟨"c1", "n1", 5⟩, by decide, by decide⟩

/-- C10: a create-session request reusing a stored id, with spare
capacity, replaces that session's fields, leaves all previously stored
attendance records in place, and the next list-attendances payload pairs
the replacement session with exactly the old records. -/
theorem create_existing_id_replaces (st : Store) (d : CreateDoc)
    (old : AttendanceSession) (hlen : st.sessions.length < MAX_SESSIONS)
    (hold : lookupA st.sessions (jsonAsString d.sessionId) = some old) :
    lookupA (createAttendanceOnWrite st (.parsed d)).sessions (jsonAsString d.sessionId)
      = some ⟨jsonAsString d.courseCode, jsonAsString d.courseName,
          jsonAsNat d.expiryTimestamp⟩ ∧
    (createAttendanceOnWrite st (.parsed d)).markedAttendances = st.markedAttendances ∧
    (∃ e ∈ (retrieveAttendancesOnRead (createAttendanceOnWrite st (.parsed d))).1,
      e.sessionId = jsonAsString d.sessionId ∧
      e.expiryTimestamp = jsonAsNat d.expiryTimestamp ∧
      e.attendances = lookupRecords st.markedAttendances (jsonAsString d.sessionId)) := by
  have hfull : ¬ MAX_SESSIONS ≤ st.sessions.length := Nat.not_le.mpr hlen
  have hsess : (createAttendanceOnWrite st (.parsed d)).sessions =
      insertA st.sessions (jsonAsString d.sessionId)
        ⟨jsonAsString d.courseCode, jsonAsString d.courseName,
          jsonAsNat d.expiryTimestamp⟩ := by
    simp [createAttendanceOnWrite, hfull]
  have hmarked : (createAttendanceOnWrite st (.parsed d)).markedAttendances =
      st.markedAttendances := by
    simp [createAttendanceOnWrite, hfull]
  refine ⟨?_, hmarked, ?_⟩
  · rw [hsess]
    exact lookupA_insertA_self _ _ _
  · have hself := lookupA_insertA_self st.sessions (jsonAsString d.sessionId)
      (⟨jsonAsString d.courseCode, jsonAsString d.courseName,
        jsonAsNat d.expiryTimestamp⟩ : AttendanceSession)
    have hmem : ((jsonAsString d.sessionId),
        (⟨jsonAsString d.courseCode, jsonAsString d.courseName,
          jsonAsNat d.expiryTimestamp⟩ : AttendanceSession))
        ∈ (createAttendanceOnWrite st (.parsed d)).sessions := by
      rw [hsess]
      exact lookupA_mem _ _ _ hself
    refine ⟨attendanceEntryOf (createAttendanceOnWrite st (.parsed d)).markedAttendances
      ((jsonAsString d.sessionId),
       ⟨jsonAsString d.courseCode, jsonAsString d.courseName,
         jsonAsNat d.expiryTimestamp⟩), ?_, rfl, rfl, ?_⟩
    · have hpay : (retrieveAttendancesOnRead (createAttendanceOnWrite st (.parsed d))).1
          = (createAttendanceOnWrite st (.parsed d)).sessions.map
              (attendanceEntryOf (createAttendanceOnWrite st (.parsed d)).markedAttendances) :=
        retrieveAttendancesGo_fst _ _
      rw [hpay]
      exact List.mem_map_of_mem _ hmem
    · simp [attendanceEntryOf, hmarked]

/-- A store whose session "A" already holds a record with timestamp 4. -/
def storeReplace : Store :=
  ⟨[("A", ⟨"CSC101", "Circuits", 10⟩)], [("A", [⟨"Ada Obi", "EEG1", 4⟩])]⟩

/-- A create-session document reusing id "A" with expiry 2, below the
timestamp of the record already stored for "A". -/
def docReplace : CreateDoc := ⟨some "A", some "CSC101", some "Circuits", some 2⟩

/-- Witness for C10: replacing session "A" keeps the old record even
though its timestamp 4 exceeds the new expiry 2. -/
theorem create_existing_id_replaces_witness :
    lookupA (createAttendanceOnWrite storeReplace (.parsed docReplace)).sessions "A"
      = some ⟨"CSC101", "Circuits", 2⟩ ∧
    (createAttendanceOnWrite storeReplace (.parsed docReplace)).markedAttendances
      = storeReplace.markedAttendances := by
  have h := create_existing_id_replaces storeReplace docReplace
    ⟨"CSC101", "Circuits", 10⟩ (by decide) (by decide)
  exact ⟨h.1, h.2.1⟩

/-- A device list-attendances payload holding one session with one record. -/
def snapOneRecord : List (String × DeviceSessionData) :=
  [("CSC101-A", ⟨"CSC101", "Circuits", [⟨"Ada Obi", "EEG2020001", 100⟩]⟩)]

/-- C2 evaluated: persisting the same fetched snapshot twice, with no
intervening mark, re-inserts its record, so the replica record count
grows from 1 to 2 instead of staying at 1 as required. -/
theorem organizer_refetch_duplicates :
    (persistDeviceSnapshot ⟨[], []⟩ "lect" 0 snapOneRecord).recordRows.length = 1 ∧
    (persistDeviceSnapshot (persistDeviceSnapshot ⟨[], []⟩ "lect" 0 snapOneRecord)
        "lect" 0 snapOneRecord).recordRows.length = 2 ∧
    (persistDeviceSnapshot (persistDeviceSnapshot ⟨[], []⟩ "lect" 0 snapOneRecord)
        "lect" 0 snapOneRecord).sessionRows.length = 1 := by
  decide

theorem filteredSessions_not_marked (markedSessions : List MarkedAttendance)
    (S : String) (m : MarkedAttendance) (hm : m ∈ markedSessions)
    (hS : m.sessionId = S) (sessions : List SessionEntry) :
    ∀ e ∈ filteredSessions sessions markedSessions, e.sessionId ≠ S := by
  intro e he hcontra
  have h2 := (List.mem_filter.mp he).2
  rw [Bool.not_eq_true'] at h2
  have h3 := List.any_eq_false.mp h2 m hm
  apply h3
  rw [beq_iff_eq, hS, hcontra]

/-- C4: a fetched snapshot filtered against a marked-session replica that
contains an entry for id S never lists a session with id S, whatever the
snapshot contains; and once the optimistic local apply of markAttendance
has run for a session, no later snapshot filter lists that session's id. -/
theorem participant_dedup (markedSessions : List MarkedAttendance) (S : String)
    (h : ∃ m ∈ markedSessions, m.sessionId = S) :
    (∀ sessions : List SessionEntry,
      ∀ e ∈ filteredSessions sessions markedSessions, e.sessionId ≠ S) ∧
    (∀ availableSessions s timestamp (sessions : List SessionEntry),
      ∀ e ∈ filteredSessions sessions
        (markAttendanceApply markedSessions availableSessions s timestamp).1,
      e.sessionId ≠ s.sessionId) := by
  obtain ⟨m, hm, hS⟩ := h
  refine ⟨?_, ?_⟩
  · intro sessions
    exact filteredSessions_not_marked markedSessions S m hm hS sessions
  · intro availableSessions s timestamp sessions
    refine filteredSessions_not_marked _ s.sessionId
      ⟨s.sessionId, s.courseCode, s.courseName, s.expiryTimestamp, timestamp⟩
      ?_ rfl sessions
    exact List.mem_append_right _ (by simp [markAttendanceApply])

/-- Witness for C4: with session S1 in the marked replica, a fresh
snapshot that still advertises S1 yields a markable list whose only
surviving entry is S2. -/
theorem participant_dedup_witness :
    SessionEntry.sessionId ⟨"S2", "c2", "n2", 20⟩ ≠ "S1" := by
  have h := participant_dedup [⟨"S1", "c1", "n1", 10, 5⟩] "S1"
    ⟨⟨"S1", "c1", "n1", 10, 5⟩, by decide, rfl⟩
  exact h.1 [⟨"S1", "c1", "n1", 10⟩, ⟨"S2", "c2", "n2", 20⟩]
    ⟨"S2", "c2", "n2", 20⟩ (by decide)

/-- C5 counterexample: a mark-attendance write error while connected
leaves the Connection State Machine in the connected state, not in
disconnected as the claim requires; and the lecturer's attendances-read
error is not surfaced to the user at all. -/
theorem transport_failure_counterexample :
    (onTransportFailure .connected .markWriteError).state = .connected ∧
    (ConnState.connected ≠ ConnState.disconnected) ∧
    (onTransportFailure .connected .attendancesReadError).surfaced = false := by
  decide

/-- C5 amended: scan and connect errors are surfaced and reset the
Connection State Machine to disconnected; no read or write error on an
established connection resets the machine — the student's mark-write and
sessions-read errors and the lecturer's create-write error are surfaced
by an error toast with the state unchanged, while the lecturer's
attendances-read error is only logged and not surfaced, the state again
unchanged. -/
theorem transport_failure_amended (st : ConnState) :
    onTransportFailure st .scanError = ⟨.disconnected, true⟩ ∧
    onTransportFailure st .connectError = ⟨.disconnected, true⟩ ∧
    onTransportFailure st .markWriteError = ⟨st, true⟩ ∧
    onTransportFailure st .sessionsReadError = ⟨st, true⟩ ∧
    onTransportFailure st .createWriteError = ⟨st, true⟩ ∧
    onTransportFailure st .attendancesReadError = ⟨st, false⟩ :=
  ⟨rfl, rfl, rfl, rfl, rfl, rfl⟩

/-- The structurally valid create-session payload with every field
missing, e.g. an empty JSON object. -/
def emptyCreateDoc : CreateDoc := ⟨none, none, none, none⟩

/-- C8 counterexample: a create-session payload that parses but lacks
every required field is not dropped: on an empty store it creates a
session, with id "null" and expiry 0 from the ArduinoJson defaults. -/
theorem missing_fields_counterexample :
    createAttendanceOnWrite emptyStore (.parsed emptyCreateDoc) ≠ emptyStore ∧
    (createAttendanceOnWrite emptyStore (.parsed emptyCreateDoc)).sessions
      = [("null", ⟨"null", "null", 0⟩)] := by decide

/-- C8 amended: a payload that fails to deserialize is dropped by both
write endpoints with no effect on the store; a structurally valid payload
with missing fields is not dropped — the missing fields default (strings
to "null", timestamps to 0) and the operation proceeds, so a create with
an empty document inserts a session under id "null" whenever the store
has spare capacity. -/
theorem malformed_dropped_amended (st : Store) :
    createAttendanceOnWrite st .malformed = st ∧
    markAttendanceOnWrite st .malformed = st ∧
    (st.sessions.length < MAX_SESSIONS →
      lookupA (createAttendanceOnWrite st (.parsed emptyCreateDoc)).sessions "null"
        = some ⟨"null", "null", 0⟩) := by
  refine ⟨rfl, rfl, ?_⟩
  intro hlen
  have hfull : ¬ MAX_SESSIONS ≤ st.sessions.length := Nat.not_le.mpr hlen
  have hsess : (createAttendanceOnWrite st (.parsed emptyCreateDoc)).sessions =
      insertA st.sessions "null" ⟨"null", "null", 0⟩ := by
    simp [createAttendanceOnWrite, hfull, emptyCreateDoc, jsonAsString, jsonAsNat]
  rw [hsess]
  exact lookupA_insertA_self _ _ _

/-- Witness for C8 amended at the empty store. -/
theorem malformed_dropped_amended_witness :
    createAttendanceOnWrite emptyStore .malformed = emptyStore ∧
    markAttendanceOnWrite emptyStore .malformed = emptyStore ∧
    lookupA (createAttendanceOnWrite emptyStore (.parsed emptyCreateDoc)).sessions "null"
      = some ⟨"null", "null", 0⟩ := by
  have h := malformed_dropped_amended emptyStore
  exact ⟨h.1, h.2.1, h.2.2 (by decide)⟩

end BleAttendance
